import Mathlib

/-!
Shallow embedding of the freezer-monitor alerting core.

Sources embedded here:
* `src/alerts.js` — the per-device alert state machine: `shouldCooldown`,
  `updateReading`, `checkHeartbeats`, `getStates`;
* `src/server.js` — the `/ingest` bound-override resolution feeding
  `updateReading`;
* `src/unnamed/part_003` (`discord.js`) — `postToDiscord`, the webhook
  channel client with its two-attempt loop.

Conventions of the embedding:
* JS numbers that the code only compares, adds and subtracts (temperatures,
  timestamps, thresholds) are modelled as `ℚ`; every value the core stores
  is finite, and the ingest layer rejects non-finite temperatures before the
  core sees them.
* A JS value that may be `undefined` is an `Option`; comparing a number
  against `undefined` (`t < undefined`) is false in JS, which `jsLtOpt` /
  `jsGtOpt` reproduce.
* `sr >>> 0` (JS ToUint32: truncation toward zero, then modulo 2^32) is
  `toUint32`.
* The mutation of the per-device record is explicit state passing: the
  transition functions return the updated record together with the list of
  events handed to `emitEvent`, in emission order.  Device ids are constant
  within one call, so the per-device model drops them from events.
* The `lastAlertAt` cooldown object has exactly the five keys the code ever
  uses; a missing key reads as `0` in the code (`?.[key] || 0`), which the
  `Ledger` structure reproduces by starting every field at `0`.
-/

namespace FreezerMonitor

/-- Device status, `'normal' | 'alert' | 'offline' | 'fault'` in `alerts.js`. -/
inductive Status
  | normal
  | alert
  | offline
  | fault
  deriving DecidableEq, Repr

/-- Kind of an event passed to `emitEvent` by the state machine. -/
inductive EKind
  | alert
  | recover
  | fault
  | offline
  | online
  deriving DecidableEq, Repr

/-- Cooldown-bucket keys used with `shouldCooldown` in `alerts.js`. -/
inductive Bucket
  | alert
  | recover
  | fault
  | offline
  | online
  deriving DecidableEq, Repr

/-- The `lastAlertAt` object of a device record: last-fired timestamp per
cooldown bucket.  A key the code never wrote reads as `0`. -/
structure Ledger where
  alert : ℚ := 0
  recover : ℚ := 0
  fault : ℚ := 0
  offline : ℚ := 0
  online : ℚ := 0
  deriving DecidableEq, Repr

/-- Read a bucket's last-fired timestamp (`state.lastAlertAt?.[key] || 0`). -/
def Ledger.get (l : Ledger) : Bucket → ℚ
  | Bucket.alert => l.alert
  | Bucket.recover => l.recover
  | Bucket.fault => l.fault
  | Bucket.offline => l.offline
  | Bucket.online => l.online

/-- Write a bucket's last-fired timestamp (`state.lastAlertAt[key] = now`). -/
def Ledger.set (l : Ledger) : Bucket → ℚ → Ledger
  | Bucket.alert, v => { l with alert := v }
  | Bucket.recover, v => { l with recover := v }
  | Bucket.fault, v => { l with fault := v }
  | Bucket.offline, v => { l with offline := v }
  | Bucket.online, v => { l with online := v }

/-- Process-wide knobs of `alerts.js`: `COOLDOWN_SEC`, `SPIKE_C`,
`HEARTBEAT_SEC` (all read from the environment at module load). -/
structure Knobs where
  cooldownSec : ℚ
  spikeC : ℚ
  heartbeatSec : ℚ
  deriving DecidableEq, Repr

/-- The function `shouldCooldown(state, key, now)` of `alerts.js`.  Returns the JS boolean
(`true` = within the cooldown window, suppress) together with the
`lastAlertAt` object after the call: the entry is set to `now` exactly when
the call returns `false`. -/
def shouldCooldown (K : Knobs) (led : Ledger) (k : Bucket) (now : ℚ) : Bool × Ledger :=
  if now - led.get k ≥ K.cooldownSec * 1000 then (false, led.set k now)
  else (true, led)

/-- Truncation toward zero of a rational, the first half of JS ToUint32.
Both operands of the integer division are non-negative, so any of the
division conventions on `ℤ` agree with truncation here. -/
def jsTrunc (q : ℚ) : ℤ :=
  if 0 ≤ q.num then q.num / q.den else -((-q.num) / q.den)

/-- JS `x >>> 0` on a (finite) number: truncate toward zero, then reduce
modulo 2^32 into `[0, 2^32)`. -/
def toUint32 (q : ℚ) : ℕ :=
  ((jsTrunc q) % (4294967296 : ℤ)).toNat

/-- JS `a < b` where `b` may be `undefined`: any order comparison against
`undefined` is false. -/
def jsLtOpt (a : ℚ) : Option ℚ → Bool
  | some b => decide (a < b)
  | none => false

/-- JS `a > b` where `b` may be `undefined`. -/
def jsGtOpt (a : ℚ) : Option ℚ → Bool
  | some b => decide (b < a)
  | none => false

/-- The status computation of `updateReading` (`alerts.js` lines 158-168):
any non-zero `sr >>> 0` is a fault; otherwise a temperature strictly outside
the bounds is an alert; otherwise normal.  A bound that is `undefined` makes
both comparisons false. -/
def classify (t : ℚ) (sr : ℚ) (lower upper : Option ℚ) : Status :=
  if toUint32 sr ≠ 0 then Status.fault
  else if jsLtOpt t lower || jsGtOpt t upper then Status.alert
  else Status.normal

/-- One reading as passed to `updateReading({ id, t, sr = 0, ts, lower, upper })`.
The bounds may be `undefined` (the `/ingest` caller passes `undefined` when
neither a per-device nor a global configured bound exists). -/
structure Reading where
  t : ℚ
  sr : ℚ := 0
  ts : ℚ
  lower : Option ℚ := none
  upper : Option ℚ := none
  deriving DecidableEq, Repr

/-- Per-device record of the `devices` map in `alerts.js`, with the
`lastAlertAt` object inlined (the record is the sole owner of its ledger
during a call; the aliasing `getStates` creates is modelled separately). -/
structure DeviceRec where
  lastTs : ℚ := 0
  lastTemp : Option ℚ := none
  lastSr : ℕ := 0
  status : Status := Status.normal
  lastAlertAt : Ledger := {}
  lastOnlineAt : ℚ := 0
  deriving DecidableEq, Repr

/-- The record `updateReading` creates on first contact with a device id. -/
def freshRec : DeviceRec := {}

/-- The event object handed to `emitEvent`, restricted to the fields the
state machine actually sets (a field an emit site omits is `none`). -/
structure Event where
  kind : EKind
  t : Option ℚ := none
  sr : Option ℚ := none
  lower : Option ℚ := none
  upper : Option ℚ := none
  when : ℚ
  deriving DecidableEq, Repr

/-- The spike test of the alert branch:
`Number.isFinite(rec.lastTemp) && Math.abs(t - rec.lastTemp) >= SPIKE_C`.
A device with no previous reading has `lastTemp === undefined`, which is not
finite, so the spike test is false. -/
def spikeOf (K : Knobs) (lastTemp : Option ℚ) (t : ℚ) : Bool :=
  match lastTemp with
  | some p => decide (|t - p| ≥ K.spikeC)
  | none => false

/-- The event object of the `online` emit site (`alerts.js` lines 173-181). -/
def onlineEvent (r : Reading) : Event :=
  { kind := EKind.online, t := some r.t, sr := some r.sr,
    lower := r.lower, upper := r.upper, when := r.ts }

/-- The event object of the `fault` emit site (`alerts.js` lines 188-196). -/
def faultEvent (r : Reading) : Event :=
  { kind := EKind.fault, t := some r.t, sr := some r.sr,
    lower := r.lower, upper := r.upper, when := r.ts }

/-- The event object of the `alert` emit site (`alerts.js` lines 209-216;
this site passes no `sr`). -/
def alertEvent (r : Reading) : Event :=
  { kind := EKind.alert, t := some r.t,
    lower := r.lower, upper := r.upper, when := r.ts }

/-- The event object of the `recover` emit site (`alerts.js` lines 221-227). -/
def recoverEvent (r : Reading) : Event :=
  { kind := EKind.recover, t := some r.t,
    lower := r.lower, upper := r.upper, when := r.ts }

/-- The "previously offline" branch of `updateReading` (`alerts.js` lines
171-183): when the pre-call status was `offline`, emit `online` gated by the
`online` cooldown bucket; otherwise touch nothing. -/
def onlineStep (K : Knobs) (wasStatus : Status) (led : Ledger) (r : Reading) :
    Ledger × List Event :=
  if wasStatus = Status.offline then
    ((shouldCooldown K led Bucket.online r.ts).2,
      if (shouldCooldown K led Bucket.online r.ts).1 then []
      else [onlineEvent r])
  else (led, [])

/-- The fault branch of `updateReading` (`alerts.js` lines 185-198): when
the new status is `fault`, `shouldCooldown` is always called (left operand
of `||`), and the event is emitted if that call allowed it **or** the
pre-call status was not `fault`. -/
def faultStep (K : Knobs) (wasStatus statusNow : Status) (led : Ledger) (r : Reading) :
    Ledger × List Event :=
  if statusNow = Status.fault then
    ((shouldCooldown K led Bucket.fault r.ts).2,
      if (shouldCooldown K led Bucket.fault r.ts).1 = false ∨ wasStatus ≠ Status.fault then
        [faultEvent r]
      else [])
  else (led, [])

/-- The alert/recover branch of `updateReading` (`alerts.js` lines 200-230).
`spike || !shouldCooldown(rec, key, now) || !wasAlert` short-circuits: on a
spike, `shouldCooldown` is never called and the ledger is untouched;
otherwise `shouldCooldown` is called and the event is emitted if it allowed
it or the pre-call status was not `alert`.  When the status leaves `alert`
for `normal`, `recover` is emitted gated by the `recover` bucket. -/
def alertStep (K : Knobs) (wasStatus statusNow : Status) (lastTemp : Option ℚ)
    (led : Ledger) (r : Reading) : Ledger × List Event :=
  if statusNow = Status.alert then
    if spikeOf K lastTemp r.t then (led, [alertEvent r])
    else
      ((shouldCooldown K led Bucket.alert r.ts).2,
        if (shouldCooldown K led Bucket.alert r.ts).1 = false ∨ wasStatus ≠ Status.alert then
          [alertEvent r]
        else [])
  else if wasStatus = Status.alert ∧ statusNow = Status.normal then
    ((shouldCooldown K led Bucket.recover r.ts).2,
      if (shouldCooldown K led Bucket.recover r.ts).1 = false then [recoverEvent r]
      else [])
  else (led, [])

/-- The function `updateReading` of `alerts.js` (lines 143-239) on one device record
(`none` = device id not yet in the map).  Returns the record written back to
the map and the events emitted, in source order: the `online` notice, then
the `fault` emit, then the `alert`/`recover` emit.  The final block persists
`lastTs`, `lastTemp`, `lastSr = sr >>> 0`, the new status and `lastOnlineAt`
unconditionally. -/
def updateReading (K : Knobs) (rec? : Option DeviceRec) (r : Reading) :
    DeviceRec × List Event :=
  let st := rec?.getD freshRec
  let statusNow := classify r.t r.sr r.lower r.upper
  let p1 := onlineStep K st.status st.lastAlertAt r
  let p2 := faultStep K st.status statusNow p1.1 r
  let p3 := alertStep K st.status statusNow st.lastTemp p2.1 r
  ({ lastTs := r.ts, lastTemp := some r.t, lastSr := toUint32 r.sr,
     status := statusNow, lastAlertAt := p3.1, lastOnlineAt := r.ts },
   p1.2 ++ p2.2 ++ p3.2)

/-- The quantity `Math.max(30, HEARTBEAT_SEC) * 1000 * 2`, the staleness threshold of
`checkHeartbeats`. -/
def offlineAfterMs (K : Knobs) : ℚ :=
  max 30 K.heartbeatSec * 1000 * 2

/-- The body of the `checkHeartbeats` loop of `alerts.js` (lines 242-262)
for one device: a stale, not-yet-offline device gets an `offline` event
gated by the `offline` cooldown bucket and its status set to `offline`
either way; any other device is untouched. -/
def checkHeartbeatsDevice (K : Knobs) (st : DeviceRec) (now : ℚ) :
    DeviceRec × List Event :=
  if now - st.lastTs ≥ offlineAfterMs K ∧ st.status ≠ Status.offline then
    ({ st with
        status := Status.offline,
        lastAlertAt := (shouldCooldown K st.lastAlertAt Bucket.offline now).2 },
      if (shouldCooldown K st.lastAlertAt Bucket.offline now).1 = false then
        [{ kind := EKind.offline, when := now }]
      else [])
  else (st, [])

/-- Number of events of a given kind in an emitted batch. -/
def countKind (k : EKind) (evs : List Event) : ℕ :=
  (evs.filter (fun e => decide (e.kind = k))).length

/-- The bound-override resolution of `/ingest` in `server.js` (lines
250-255): a per-device configured bound wins, else the global configured
bound, else `undefined` — there is no fallback to the `LOWER`/`UPPER`
environment defaults on this path. -/
def resolveBound (devCfg cfg : Option ℚ) : Option ℚ :=
  match devCfg with
  | some v => some v
  | none => cfg

/-!
Section: the `getStates` snapshot and JS object aliasing.

`getStates()` is `[...devices.entries()].map(([id, s]) => ({ id, ...s }))`.
The object spread copies the scalar fields of `s` into a fresh object, but
`lastAlertAt` is itself an object, and the spread copies only the
*reference* to it.  To reason about that aliasing, this section models the
`lastAlertAt` objects as living in a heap addressed by `ℕ`, with the device
record holding an address.  The pure `DeviceRec` above is the dereferenced
view of such a record. -/

/-- Heap of `lastAlertAt` objects; an address is an index into the store
(reading an unallocated address yields the all-zero ledger, matching a JS
object with no keys written). -/
structure LedgerHeap where
  store : List Ledger
  deriving DecidableEq, Repr

/-- Dereference a ledger address. -/
def LedgerHeap.read (h : LedgerHeap) (a : ℕ) : Ledger :=
  h.store.getD a {}

/-- Overwrite the object at a ledger address. -/
def LedgerHeap.write (h : LedgerHeap) (a : ℕ) (l : Ledger) : LedgerHeap :=
  ⟨h.store.set a l⟩

/-- A caller-side mutation `snapshotEntry.lastAlertAt[key] = v` performed
through a ledger reference. -/
def LedgerHeap.writeBucket (h : LedgerHeap) (a : ℕ) (k : Bucket) (v : ℚ) : LedgerHeap :=
  h.write a ((h.read a).set k v)

/-- A device record as stored in the `devices` map, with its `lastAlertAt`
held by reference into the heap. -/
structure DeviceRecRef where
  lastTs : ℚ := 0
  lastTemp : Option ℚ := none
  lastSr : ℕ := 0
  status : Status := Status.normal
  ledgerAddr : ℕ
  lastOnlineAt : ℚ := 0
  deriving DecidableEq, Repr

/-- The dereferenced (value) view of a referenced device record. -/
def DeviceRecRef.deref (h : LedgerHeap) (d : DeviceRecRef) : DeviceRec :=
  { lastTs := d.lastTs, lastTemp := d.lastTemp, lastSr := d.lastSr,
    status := d.status, lastAlertAt := h.read d.ledgerAddr,
    lastOnlineAt := d.lastOnlineAt }

/-- One element of the array `getStates()` returns: `{ id, ...s }`.  The
spread copies the scalar fields and the `lastAlertAt` *reference*. -/
structure SnapshotEntry where
  id : String
  lastTs : ℚ
  lastTemp : Option ℚ
  lastSr : ℕ
  status : Status
  ledgerAddr : ℕ
  lastOnlineAt : ℚ
  deriving DecidableEq, Repr

/-- The function `getStates` of `alerts.js` (lines 264-266) over the `devices` map. -/
def getStates (devs : List (String × DeviceRecRef)) : List SnapshotEntry :=
  devs.map fun p =>
    { id := p.1, lastTs := p.2.lastTs, lastTemp := p.2.lastTemp,
      lastSr := p.2.lastSr, status := p.2.status,
      ledgerAddr := p.2.ledgerAddr, lastOnlineAt := p.2.lastOnlineAt }

/-- The function `updateReading` acting on a referenced record: the record is
dereferenced, the pure transition runs, and the resulting `lastAlertAt` is
written back through the record's ledger reference (the JS code mutates the
`lastAlertAt` object in place). -/
def updateReadingRef (K : Knobs) (h : LedgerHeap) (d : DeviceRecRef) (r : Reading) :
    LedgerHeap × DeviceRecRef × List Event :=
  let out := updateReading K (some (DeviceRecRef.deref h d)) r
  (h.write d.ledgerAddr out.1.lastAlertAt,
   { lastTs := out.1.lastTs, lastTemp := out.1.lastTemp, lastSr := out.1.lastSr,
     status := out.1.status, ledgerAddr := d.ledgerAddr,
     lastOnlineAt := out.1.lastOnlineAt },
   out.2)

/-!
Section: the Discord webhook client (`src/unnamed/part_003`, `discord.js`)

`postToDiscord` is modelled against an abstract transport: `resp i` is the
HTTP status the `fetch` of attempt `i` would return (`i = 0` is the first
request).  The sleeps (rate-limit gap, Retry-After, the fixed 400 ms pause)
have no effect on the returned result or on the number of requests issued,
so they are elided.  The result object keeps the fields the claims are
about; the `reason`/`body` strings are elided. -/

/-- Result object returned by `postToDiscord`.  `status = some 0` is the
`{ ok:false, status:0, body:"Unknown error" }` fall-through return. -/
structure PostResult where
  ok : Bool
  skipped : Bool := false
  status : Option ℕ := none
  deriving DecidableEq, Repr

/-- JS `res.ok`: status in the inclusive range 200-299. -/
def httpOk (s : ℕ) : Bool :=
  decide (200 ≤ s ∧ s ≤ 299)

/-- The function `postToDiscord` of `discord.js`: the webhook-missing short-circuit, then
the two-attempt loop.  On attempt 1, a 204 returns success; every other
status (429, non-ok, and even ok-but-not-204, which falls through the loop
body) leads to attempt 2.  On attempt 2, a 204 returns success, a non-ok
non-429 status returns `{ ok:false, status }`, and a 429 or an ok-but-not-204
status falls off the loop into the `{ ok:false, status:0 }` return.
The second component counts the HTTP requests issued. -/
def postToDiscord (webhookConfigured : Bool) (resp : ℕ → ℕ) : PostResult × ℕ :=
  if webhookConfigured = false then
    ({ ok := false, skipped := true }, 0)
  else if resp 0 = 204 then
    ({ ok := true, status := some 204 }, 1)
  else if resp 1 = 204 then
    ({ ok := true, status := some 204 }, 2)
  else if resp 1 = 429 then
    ({ ok := false, status := some 0 }, 2)
  else if httpOk (resp 1) then
    ({ ok := false, status := some 0 }, 2)
  else
    ({ ok := false, status := some (resp 1) }, 2)

/-!
Section: auxiliary definitions and concrete scenario inputs.

`K0` fixes the knobs at the source's environment defaults
(`ALERT_COOLDOWN_SEC = 900`, `SPIKE_C = 1.5`, `HEARTBEAT_SEC = 300`), and
`LOWER`/`UPPER` are the `server.js` environment defaults
(`LOWER_BOUND_C = -90`, `UPPER_BOUND_C = -70`).  The `cx…` definitions are
concrete runs used by witnesses and counterexamples; successive states are
chained explicitly. -/

/-- The event kind a cooldown bucket gates. -/
def bucketKind : Bucket → EKind
  | Bucket.alert => EKind.alert
  | Bucket.recover => EKind.recover
  | Bucket.fault => EKind.fault
  | Bucket.offline => EKind.offline
  | Bucket.online => EKind.online

/-- The `LOWER_BOUND_C` environment default of `server.js`. -/
def LOWER : ℚ := -90

/-- The `UPPER_BOUND_C` environment default of `server.js`. -/
def UPPER : ℚ := -70

/-- Knobs at the source's environment defaults. -/
def K0 : Knobs := { cooldownSec := 900, spikeC := 3 / 2, heartbeatSec := 300 }

/-- Configured bounds used in the concrete scenarios. -/
def bLo : Option ℚ := some (-90)

/-- Configured bounds used in the concrete scenarios. -/
def bHi : Option ℚ := some (-70)

/-- An in-bounds reading establishing a device (scenario start). -/
def rNormal1 : Reading := { t := -80, ts := 1000000, lower := bLo, upper := bHi }

/-- State after the first normal reading of the offline scenario. -/
def cxS1 : DeviceRec × List Event := updateReading K0 none rNormal1

/-- First heartbeat sweep of the offline scenario, 600000 ms after the
last reading (`offlineAfterMs K0 = 600000`). -/
def cxH1 : DeviceRec × List Event := checkHeartbeatsDevice K0 cxS1.1 1600000

/-- The reading that brings the device back after its first offline episode. -/
def rNormal2 : Reading := { t := -80, ts := 1600001, lower := bLo, upper := bHi }

/-- State after the device came back online. -/
def cxS2 : DeviceRec × List Event := updateReading K0 (some cxH1.1) rNormal2

/-- Second heartbeat sweep: the device is stale again
(`2200001 - 1600001 = 600000`), and this sweep first detects the second
offline episode, `600001 ms < 900000 ms` after the first `offline` event. -/
def cxH2 : DeviceRec × List Event := checkHeartbeatsDevice K0 cxS2.1 2200001

/-- An out-of-range reading on a fresh device (alert scenarios). -/
def rAlert1 : Reading := { t := -60, ts := 1000000, lower := bLo, upper := bHi }

/-- First alert reading of the spike scenario. -/
def cxA1 : DeviceRec × List Event := updateReading K0 none rAlert1

/-- A second out-of-range reading 100 ms later whose temperature jumped by
10 °C (`≥ SPIKE_C`), well inside the 900000 ms cooldown window. -/
def rAlert2 : Reading := { t := -50, ts := 1000100, lower := bLo, upper := bHi }

/-- Second call of the spike scenario. -/
def cxA2 : DeviceRec × List Event := updateReading K0 (some cxA1.1) rAlert2

/-- A first faulty reading (`sr = 0x01`) on a fresh device. -/
def rFault1 : Reading := { t := -80, sr := 1, ts := 1000000, lower := bLo, upper := bHi }

/-- State after the first faulty reading. -/
def cxF1 : DeviceRec × List Event := updateReading K0 none rFault1

/-- The same fault code again 100 ms later, inside the cooldown window. -/
def rFault2 : Reading := { t := -80, sr := 1, ts := 1000100, lower := bLo, upper := bHi }

/-- A reading with `temp_c = 0` (well outside the default bounds
`-90..-70`), `sr = 0`, and no bounds supplied — what `/ingest` passes when
neither a per-device nor a global bound is configured. -/
def rNoBounds : Reading := { t := 0, ts := 1000000 }

/-- A reading whose `sr` is the negative number `-2^32`: its unsigned-32-bit
conversion is `0`. -/
def rNegSr : Reading := { t := -80, sr := -4294967296, ts := 1000000, lower := bLo, upper := bHi }

/-- Heap holding the single `lastAlertAt` object of the snapshot scenario:
the device's `alert` bucket last fired at `t = 1000`. -/
def hp0 : LedgerHeap := ⟨[{ alert := 1000 }]⟩

/-- Internal record of the snapshot scenario: a device in `alert` status
whose ledger lives at address 0. -/
def dev0 : DeviceRecRef :=
  { lastTs := 1000000, lastTemp := some (-60), lastSr := 0,
    status := Status.alert, ledgerAddr := 0, lastOnlineAt := 1000000 }

/-- The `devices` map of the snapshot scenario. -/
def devs0 : List (String × DeviceRecRef) := [("A", dev0)]

/-- The snapshot `getStates()` returns in that scenario. -/
def snap0 : List SnapshotEntry := getStates devs0

/-- The heap after the caller writes
`snapshot[0].lastAlertAt["alert"] = 1899999` through the snapshot's ledger
reference. -/
def hpMut : LedgerHeap :=
  hp0.writeBucket ((snap0.headD
    { id := "", lastTs := 0, lastTemp := none, lastSr := 0,
      status := Status.normal, ledgerAddr := 0, lastOnlineAt := 0 }).ledgerAddr)
    Bucket.alert 1899999

/-- A sustained out-of-range reading sent to the snapshot-scenario device
just after the caller's mutation: no spike (`|Δt| = 0`), already in alert. -/
def rAlert3 : Reading := { t := -60, ts := 1900001, lower := bLo, upper := bHi }

/-- The single entry of `snap0`, written out. -/
def snapEntry0 : SnapshotEntry :=
  { id := "A", lastTs := 1000000, lastTemp := some (-60), lastSr := 0,
    status := Status.alert, ledgerAddr := 0, lastOnlineAt := 1000000 }

/-!
Section: helper lemmas.
-/

theorem Ledger.get_set (l : Ledger) (k k' : Bucket) (v : ℚ) :
    (l.set k v).get k' = if k' = k then v else l.get k' := by
  cases k <;> cases k' <;> simp [Ledger.get, Ledger.set]

theorem shouldCooldown_fst_false_iff (K : Knobs) (led : Ledger) (k : Bucket) (now : ℚ) :
    (shouldCooldown K led k now).1 = false ↔ K.cooldownSec * 1000 ≤ now - led.get k := by
  unfold shouldCooldown
  split <;> simp_all

theorem onlineStep_spec (K : Knobs) (w : Status) (led : Ledger) (r : Reading) :
    onlineStep K w led r = (led, []) ∨
      onlineStep K w led r = (led.set Bucket.online r.ts, [onlineEvent r]) := by
  unfold onlineStep shouldCooldown
  split <;> [skip; simp]
  split <;> simp

theorem onlineStep_of_not_offline (K : Knobs) (w : Status) (led : Ledger) (r : Reading)
    (h : w ≠ Status.offline) : onlineStep K w led r = (led, []) := by
  simp [onlineStep, h]

theorem faultStep_spec (K : Knobs) (w s : Status) (led : Ledger) (r : Reading) :
    faultStep K w s led r = (led, []) ∨
      faultStep K w s led r = (led, [faultEvent r]) ∨
      faultStep K w s led r = (led.set Bucket.fault r.ts, [faultEvent r]) := by
  unfold faultStep shouldCooldown
  split <;> [skip; simp]
  split <;> split <;> simp_all

theorem faultStep_of_ne (K : Knobs) (w s : Status) (led : Ledger) (r : Reading)
    (h : s ≠ Status.fault) : faultStep K w s led r = (led, []) := by
  simp [faultStep, h]

theorem alertStep_spec (K : Knobs) (w s : Status) (lt : Option ℚ) (led : Ledger) (r : Reading) :
    alertStep K w s lt led r = (led, []) ∨
      alertStep K w s lt led r = (led, [alertEvent r]) ∨
      alertStep K w s lt led r = (led.set Bucket.alert r.ts, [alertEvent r]) ∨
      alertStep K w s lt led r = (led.set Bucket.recover r.ts, [recoverEvent r]) := by
  unfold alertStep shouldCooldown
  split
  · split
    · simp
    · split <;> split <;> simp_all
  · split
    · split <;> simp_all
    · simp

theorem updateReading_eq (K : Knobs) (rec? : Option DeviceRec) (r : Reading) :
    updateReading K rec? r =
      (({ lastTs := r.ts, lastTemp := some r.t, lastSr := toUint32 r.sr,
          status := classify r.t r.sr r.lower r.upper,
          lastAlertAt := (alertStep K (rec?.getD freshRec).status
            (classify r.t r.sr r.lower r.upper) (rec?.getD freshRec).lastTemp
            (faultStep K (rec?.getD freshRec).status (classify r.t r.sr r.lower r.upper)
              (onlineStep K (rec?.getD freshRec).status (rec?.getD freshRec).lastAlertAt r).1
              r).1 r).1,
          lastOnlineAt := r.ts } : DeviceRec),
       (onlineStep K (rec?.getD freshRec).status (rec?.getD freshRec).lastAlertAt r).2 ++
         (faultStep K (rec?.getD freshRec).status (classify r.t r.sr r.lower r.upper)
           (onlineStep K (rec?.getD freshRec).status (rec?.getD freshRec).lastAlertAt r).1 r).2 ++
         (alertStep K (rec?.getD freshRec).status (classify r.t r.sr r.lower r.upper)
           (rec?.getD freshRec).lastTemp
           (faultStep K (rec?.getD freshRec).status (classify r.t r.sr r.lower r.upper)
             (onlineStep K (rec?.getD freshRec).status (rec?.getD freshRec).lastAlertAt r).1
             r).1 r).2) := rfl

theorem classify_fault_iff (t sr : ℚ) (lower upper : Option ℚ) :
    classify t sr lower upper = Status.fault ↔ toUint32 sr ≠ 0 := by
  unfold classify
  split <;> [simp_all; split <;> simp_all]

theorem checkHeartbeatsDevice_spec (K : Knobs) (st : DeviceRec) (now : ℚ) :
    checkHeartbeatsDevice K st now = (st, []) ∨
      checkHeartbeatsDevice K st now =
        ({ st with
            status := Status.offline,
            lastAlertAt := st.lastAlertAt.set Bucket.offline now },
          [{ kind := EKind.offline, when := now }]) ∨
      checkHeartbeatsDevice K st now = ({ st with status := Status.offline }, []) := by
  unfold checkHeartbeatsDevice shouldCooldown
  split <;> [split <;> simp_all; simp]

theorem spikeOf_iff (K : Knobs) (lt : Option ℚ) (t : ℚ) :
    spikeOf K lt t = true ↔ ∃ p, lt = some p ∧ |t - p| ≥ K.spikeC := by
  cases lt <;> simp [spikeOf]

theorem countKind_eq_zero (k : EKind) (evs : List Event)
    (h : ∀ e ∈ evs, e.kind ≠ k) : countKind k evs = 0 := by
  unfold countKind
  rw [List.length_eq_zero]
  rw [List.filter_eq_nil_iff]
  intro e he
  simpa using h e he

/-!
Section: concrete scenario evaluations.
-/

theorem cxS1_val : cxS1 =
    ({ lastTs := 1000000, lastTemp := some (-80), lastSr := 0, status := Status.normal,
       lastAlertAt := {}, lastOnlineAt := 1000000 }, []) := by
  norm_num +decide [cxS1, rNormal1, updateReading, classify, jsLtOpt, jsGtOpt, spikeOf,
    shouldCooldown, toUint32, jsTrunc, freshRec, Ledger.get, Ledger.set, K0, bLo, bHi,
    onlineStep, faultStep, alertStep]

theorem cxH1_val : cxH1 =
    ({ lastTs := 1000000, lastTemp := some (-80), lastSr := 0, status := Status.offline,
       lastAlertAt := { offline := 1600000 }, lastOnlineAt := 1000000 },
     [{ kind := EKind.offline, when := 1600000 }]) := by
  rw [cxH1, cxS1_val]
  norm_num +decide [checkHeartbeatsDevice, offlineAfterMs, shouldCooldown,
    Ledger.get, Ledger.set, K0]

theorem cxS2_val : cxS2 =
    ({ lastTs := 1600001, lastTemp := some (-80), lastSr := 0, status := Status.normal,
       lastAlertAt := { offline := 1600000, online := 1600001 }, lastOnlineAt := 1600001 },
     [onlineEvent rNormal2]) := by
  rw [cxS2, cxH1_val]
  norm_num +decide [rNormal2, updateReading, classify, jsLtOpt, jsGtOpt, spikeOf,
    shouldCooldown, toUint32, jsTrunc, Ledger.get, Ledger.set, K0, bLo, bHi,
    onlineStep, faultStep, alertStep]

theorem cxH2_val : cxH2 =
    ({ lastTs := 1600001, lastTemp := some (-80), lastSr := 0, status := Status.offline,
       lastAlertAt := { offline := 1600000, online := 1600001 }, lastOnlineAt := 1600001 },
     []) := by
  rw [cxH2, cxS2_val]
  norm_num +decide [checkHeartbeatsDevice, offlineAfterMs, shouldCooldown,
    Ledger.get, Ledger.set, K0]

theorem cxA1_val : cxA1 =
    ({ lastTs := 1000000, lastTemp := some (-60), lastSr := 0, status := Status.alert,
       lastAlertAt := { alert := 1000000 }, lastOnlineAt := 1000000 },
     [alertEvent rAlert1]) := by
  norm_num +decide [cxA1, rAlert1, updateReading, classify, jsLtOpt, jsGtOpt, spikeOf,
    shouldCooldown, toUint32, jsTrunc, freshRec, Ledger.get, Ledger.set, K0, bLo, bHi,
    onlineStep, faultStep, alertStep]

theorem cxA2_val : cxA2 =
    ({ lastTs := 1000100, lastTemp := some (-50), lastSr := 0, status := Status.alert,
       lastAlertAt := { alert := 1000000 }, lastOnlineAt := 1000100 },
     [alertEvent rAlert2]) := by
  rw [cxA2, cxA1_val]
  norm_num +decide [rAlert2, updateReading, classify, jsLtOpt, jsGtOpt, spikeOf,
    shouldCooldown, toUint32, jsTrunc, Ledger.get, Ledger.set, K0, bLo, bHi,
    onlineStep, faultStep, alertStep]

theorem toUint32_natCast (n : ℕ) (h : n < 4294967296) : toUint32 (n : ℚ) = n := by
  unfold toUint32 jsTrunc
  rw [Rat.num_natCast, Rat.den_natCast]
  rw [if_pos (by positivity)]
  push_cast
  omega

theorem faultStep_alert (K : Knobs) (w : Status) (led : Ledger) (r : Reading) :
    faultStep K w Status.alert led r = (led, []) := by
  simp [faultStep]

theorem faultStep_normal (K : Knobs) (w : Status) (led : Ledger) (r : Reading) :
    faultStep K w Status.normal led r = (led, []) := by
  simp [faultStep]

theorem faultStep_fresh_evs (K : Knobs) (w : Status) (led : Ledger) (r : Reading)
    (hw : w ≠ Status.fault) : (faultStep K w Status.fault led r).2 = [faultEvent r] := by
  unfold faultStep
  rw [if_pos rfl]
  simp [hw]

theorem faultStep_suppressed_evs (K : Knobs) (led : Ledger) (r : Reading)
    (hcd : r.ts - led.get Bucket.fault < K.cooldownSec * 1000) :
    (faultStep K Status.fault Status.fault led r).2 = [] := by
  have hsc : (shouldCooldown K led Bucket.fault r.ts).1 = true := by
    unfold shouldCooldown
    rw [if_neg (by linarith)]
  unfold faultStep
  rw [if_pos rfl]
  simp [hsc]

theorem alertStep_of_fault (K : Knobs) (w : Status) (lt : Option ℚ) (led : Ledger)
    (r : Reading) : alertStep K w Status.fault lt led r = (led, []) := by
  simp [alertStep]

theorem alertStep_mem_alert_iff (K : Knobs) (w : Status) (lt : Option ℚ) (led : Ledger)
    (r : Reading) :
    (∃ e ∈ (alertStep K w Status.alert lt led r).2, e.kind = EKind.alert) ↔
      (spikeOf K lt r.t = true ∨ K.cooldownSec * 1000 ≤ r.ts - led.get Bucket.alert ∨
        w ≠ Status.alert) := by
  unfold alertStep shouldCooldown
  rw [if_pos rfl]
  by_cases hs : spikeOf K lt r.t
  · simp [hs, alertEvent]
  · by_cases hcd : r.ts - led.get Bucket.alert ≥ K.cooldownSec * 1000
    · rw [if_neg (by simp [hs])]
      rw [if_pos hcd]
      simp [alertEvent, hs, hcd]
    · rw [if_neg (by simp [hs])]
      rw [if_neg hcd]
      by_cases hw : w = Status.alert
      · simp [hw, hs, alertEvent]
        exact not_le.mp hcd
      · simp [hw, hs, alertEvent]

theorem cxF1_val : cxF1 =
    ({ lastTs := 1000000, lastTemp := some (-80), lastSr := 1, status := Status.fault,
       lastAlertAt := { fault := 1000000 }, lastOnlineAt := 1000000 },
     [faultEvent rFault1]) := by
  norm_num +decide [cxF1, rFault1, updateReading, classify, jsLtOpt, jsGtOpt, spikeOf,
    shouldCooldown, toUint32, jsTrunc, freshRec, Ledger.get, Ledger.set, K0, bLo, bHi,
    onlineStep, faultStep, alertStep]

theorem updateReading_snd (K : Knobs) (rec? : Option DeviceRec) (r : Reading) :
    (updateReading K rec? r).2 =
      (onlineStep K (rec?.getD freshRec).status (rec?.getD freshRec).lastAlertAt r).2 ++
        (faultStep K (rec?.getD freshRec).status (classify r.t r.sr r.lower r.upper)
          (onlineStep K (rec?.getD freshRec).status (rec?.getD freshRec).lastAlertAt r).1 r).2 ++
        (alertStep K (rec?.getD freshRec).status (classify r.t r.sr r.lower r.upper)
          (rec?.getD freshRec).lastTemp
          (faultStep K (rec?.getD freshRec).status (classify r.t r.sr r.lower r.upper)
            (onlineStep K (rec?.getD freshRec).status (rec?.getD freshRec).lastAlertAt r).1
            r).1 r).2 := rfl

theorem updateReading_fst_status (K : Knobs) (rec? : Option DeviceRec) (r : Reading) :
    (updateReading K rec? r).1.status = classify r.t r.sr r.lower r.upper := rfl

theorem updateReading_fst_lastSr (K : Knobs) (rec? : Option DeviceRec) (r : Reading) :
    (updateReading K rec? r).1.lastSr = toUint32 r.sr := rfl

theorem updateReading_fst_ledger (K : Knobs) (rec? : Option DeviceRec) (r : Reading) :
    (updateReading K rec? r).1.lastAlertAt =
      (alertStep K (rec?.getD freshRec).status (classify r.t r.sr r.lower r.upper)
        (rec?.getD freshRec).lastTemp
        (faultStep K (rec?.getD freshRec).status (classify r.t r.sr r.lower r.upper)
          (onlineStep K (rec?.getD freshRec).status (rec?.getD freshRec).lastAlertAt r).1
          r).1 r).1 := rfl

theorem exists_kind_append (k : EKind) (l1 l2 : List Event) :
    (∃ e ∈ l1 ++ l2, e.kind = k) ↔
      ((∃ e ∈ l1, e.kind = k) ∨ (∃ e ∈ l2, e.kind = k)) := by
  constructor
  · rintro ⟨e, he, hk⟩
    rcases List.mem_append.mp he with h | h
    · exact Or.inl ⟨e, h, hk⟩
    · exact Or.inr ⟨e, h, hk⟩
  · rintro (⟨e, he, hk⟩ | ⟨e, he, hk⟩)
    · exact ⟨e, List.mem_append.mpr (Or.inl he), hk⟩
    · exact ⟨e, List.mem_append.mpr (Or.inr he), hk⟩

/-!
Section: the claims.
-/

/-- C1: when a reading's classification is `alert`, `updateReading` emits an
`alert` event if and only if the reading is a spike (a previously stored
finite temperature exists and the absolute temperature change is at least
`SPIKE_C`), or the alert cooldown bucket allows it
(`now - lastFired ≥ COOLDOWN_SEC * 1000`), or the pre-call status was not
`alert`.  In particular a spike while the device is already in `alert`
status always produces an alert event even inside the cooldown window. -/
theorem C1_alert_emission_iff (K : Knobs) (rec? : Option DeviceRec) (r : Reading)
    (halert : classify r.t r.sr r.lower r.upper = Status.alert) :
    (∃ e ∈ (updateReading K rec? r).2, e.kind = EKind.alert) ↔
      ((∃ p, (rec?.getD freshRec).lastTemp = some p ∧ |r.t - p| ≥ K.spikeC) ∨
        K.cooldownSec * 1000 ≤ r.ts - (rec?.getD freshRec).lastAlertAt.get Bucket.alert ∨
        (rec?.getD freshRec).status ≠ Status.alert) := by
  rw [updateReading_snd, halert]
  rcases onlineStep_spec K (rec?.getD freshRec).status (rec?.getD freshRec).lastAlertAt r
    with h1 | h1 <;>
    rw [h1, faultStep_alert] <;>
    rw [exists_kind_append, exists_kind_append] <;>
    rw [alertStep_mem_alert_iff] <;>
    rw [← spikeOf_iff K (rec?.getD freshRec).lastTemp r.t]
  · simp
  · simp [onlineEvent, Ledger.get_set]

/-- C1 witness: a fresh device receiving the out-of-range reading `rAlert1`
satisfies the hypothesis and the equivalence. -/
theorem C1_witness :
    classify rAlert1.t rAlert1.sr rAlert1.lower rAlert1.upper = Status.alert ∧
      ((∃ e ∈ (updateReading K0 none rAlert1).2, e.kind = EKind.alert) ↔
        ((∃ p, ((none : Option DeviceRec).getD freshRec).lastTemp = some p ∧
            |rAlert1.t - p| ≥ K0.spikeC) ∨
          K0.cooldownSec * 1000 ≤
            rAlert1.ts - ((none : Option DeviceRec).getD freshRec).lastAlertAt.get Bucket.alert ∨
          ((none : Option DeviceRec).getD freshRec).status ≠ Status.alert)) := by
  have h : classify rAlert1.t rAlert1.sr rAlert1.lower rAlert1.upper = Status.alert := by
    norm_num +decide [classify, jsLtOpt, jsGtOpt, toUint32, jsTrunc, rAlert1, bLo, bHi]
  exact ⟨h, C1_alert_emission_iff K0 none rAlert1 h⟩

/-- C2: a fresh device's very first reading with non-zero fault code yields
exactly one `fault` event whatever the cooldown state (fresh-transition
override), and a second reading with the same non-zero code arriving while
the fault bucket is inside its cooldown window yields no further `fault`
event — one event total for the two-reading sequence. -/
theorem C2_first_fault_exactly_once (K : Knobs) (r1 r2 : Reading)
    (h1 : toUint32 r1.sr ≠ 0) (hsame : r2.sr = r1.sr)
    (hwin : r2.ts - (updateReading K none r1).1.lastAlertAt.get Bucket.fault <
      K.cooldownSec * 1000) :
    countKind EKind.fault (updateReading K none r1).2 = 1 ∧
      countKind EKind.fault (updateReading K (some (updateReading K none r1).1) r2).2 = 0 := by
  have hc1 : classify r1.t r1.sr r1.lower r1.upper = Status.fault :=
    (classify_fault_iff r1.t r1.sr r1.lower r1.upper).mpr h1
  have hc2 : classify r2.t r2.sr r2.lower r2.upper = Status.fault :=
    (classify_fault_iff r2.t r2.sr r2.lower r2.upper).mpr (hsame ▸ h1)
  constructor
  · rw [updateReading_snd, hc1]
    rw [onlineStep_of_not_offline K _ _ r1 (by simp [freshRec])]
    rw [faultStep_fresh_evs K _ _ r1 (by simp [freshRec])]
    rw [alertStep_of_fault]
    simp [countKind, faultEvent]
  · have hst : (updateReading K none r1).1.status = Status.fault := by
      rw [updateReading_fst_status]
      exact hc1
    rw [updateReading_snd, hc2]
    rw [Option.getD_some]
    rw [onlineStep_of_not_offline K _ _ r2 (by rw [hst]; simp)]
    rw [hst]
    rw [faultStep_suppressed_evs K _ r2 hwin]
    rw [alertStep_of_fault]
    simp [countKind]

/-- C2 witness: fault code `0x01` at `ts = 1000000` then again at
`ts = 1000100`, inside the 900000 ms cooldown window. -/
theorem C2_witness :
    toUint32 rFault1.sr ≠ 0 ∧ rFault2.sr = rFault1.sr ∧
      rFault2.ts - (updateReading K0 none rFault1).1.lastAlertAt.get Bucket.fault <
        K0.cooldownSec * 1000 ∧
      (countKind EKind.fault (updateReading K0 none rFault1).2 = 1 ∧
        countKind EKind.fault
          (updateReading K0 (some (updateReading K0 none rFault1).1) rFault2).2 = 0) := by
  have ha : toUint32 rFault1.sr ≠ 0 := by
    norm_num +decide [toUint32, jsTrunc, rFault1]
  have hb : rFault2.sr = rFault1.sr := rfl
  have hc : rFault2.ts - (updateReading K0 none rFault1).1.lastAlertAt.get Bucket.fault <
      K0.cooldownSec * 1000 := by
    have hv := cxF1_val
    rw [cxF1] at hv
    rw [hv]
    norm_num +decide [Ledger.get, rFault2, K0]
  exact ⟨ha, hb, hc, C2_first_fault_exactly_once K0 rFault1 rFault2 ha hb hc⟩

/-- C3: classification order — a non-zero fault code forces `fault`
regardless of the temperature; with fault code zero the status is `alert`
exactly when the temperature is strictly outside the bounds, `normal`
exactly when it is inside them inclusively, and in particular a temperature
equal to either bound is classified `normal`. -/
theorem C3_classify_order (sr : ℕ) (hsr : sr < 4294967296) (t l u : ℚ) :
    (sr ≠ 0 → classify t (sr : ℚ) (some l) (some u) = Status.fault) ∧
      (sr = 0 → (classify t (sr : ℚ) (some l) (some u) = Status.alert ↔ (t < l ∨ u < t))) ∧
      (sr = 0 → (classify t (sr : ℚ) (some l) (some u) = Status.normal ↔ (l ≤ t ∧ t ≤ u))) ∧
      (sr = 0 → l ≤ u → (t = l ∨ t = u) →
        classify t (sr : ℚ) (some l) (some u) = Status.normal) := by
  have hu : toUint32 ((sr : ℕ) : ℚ) = sr := toUint32_natCast sr hsr
  have h3 : sr = 0 → (classify t (sr : ℚ) (some l) (some u) = Status.normal ↔
      (l ≤ t ∧ t ≤ u)) := by
    intro h
    subst h
    simp only [Nat.cast_zero] at hu ⊢
    unfold classify
    rw [if_neg (by simp [hu])]
    simp only [jsLtOpt, jsGtOpt, Bool.or_eq_true, decide_eq_true_eq]
    split <;> rename_i hcond
    · constructor
      · intro hco
        exact absurd hco (by simp)
      · rintro ⟨ha, hb⟩
        rcases hcond with hc | hc <;> linarith
    · push_neg at hcond
      exact ⟨fun _ => hcond, fun _ => rfl⟩
  refine ⟨fun h => ?_, fun h => ?_, h3, fun h hlu ht => ?_⟩
  · simp [classify, hu, h]
  · subst h
    simp only [Nat.cast_zero] at hu ⊢
    unfold classify
    rw [if_neg (by simp [hu])]
    simp only [jsLtOpt, jsGtOpt, Bool.or_eq_true, decide_eq_true_eq]
    split <;> rename_i hcond
    · simp only [hcond, iff_true]
    · push_neg at hcond
      constructor
      · intro hco
        exact absurd hco (by simp)
      · rintro (hc | hc) <;> [linarith [hcond.1]; linarith [hcond.2]]
  · refine (h3 h).mpr ?_
    rcases ht with h' | h' <;> subst h' <;> exact ⟨by linarith, by linarith⟩

/-- C3 witness: fault code 1 with an out-of-range temperature at the default
bounds `-90..-70`. -/
theorem C3_witness :
    (1 : ℕ) < 4294967296 ∧
      (((1 : ℕ) ≠ 0 → classify (-60) ((1 : ℕ) : ℚ) (some (-90)) (some (-70)) = Status.fault) ∧
        ((1 : ℕ) = 0 →
          (classify (-60) ((1 : ℕ) : ℚ) (some (-90)) (some (-70)) = Status.alert ↔
            ((-60 : ℚ) < -90 ∨ (-70 : ℚ) < -60))) ∧
        ((1 : ℕ) = 0 →
          (classify (-60) ((1 : ℕ) : ℚ) (some (-90)) (some (-70)) = Status.normal ↔
            ((-90 : ℚ) ≤ -60 ∧ (-60 : ℚ) ≤ -70))) ∧
        ((1 : ℕ) = 0 → (-90 : ℚ) ≤ -70 → ((-60 : ℚ) = -90 ∨ (-60 : ℚ) = -70) →
          classify (-60) ((1 : ℕ) : ℚ) (some (-90)) (some (-70)) = Status.normal)) :=
  ⟨by norm_num, C3_classify_order 1 (by norm_num) (-60) (-90) (-70)⟩

theorem onlineStep_change (K : Knobs) (w : Status) (led : Ledger) (r : Reading) (k : Bucket)
    (h : (onlineStep K w led r).1.get k ≠ led.get k) :
    (onlineStep K w led r).1.get k = r.ts ∧ k = Bucket.online ∧
      (onlineStep K w led r).2 = [onlineEvent r] := by
  rcases onlineStep_spec K w led r with hs | hs <;>
    rw [hs] at h ⊢ <;>
    by_cases hk : k = Bucket.online <;>
    simp_all [Ledger.get_set]

theorem faultStep_change (K : Knobs) (w s : Status) (led : Ledger) (r : Reading) (k : Bucket)
    (h : (faultStep K w s led r).1.get k ≠ led.get k) :
    (faultStep K w s led r).1.get k = r.ts ∧ k = Bucket.fault ∧
      faultEvent r ∈ (faultStep K w s led r).2 := by
  rcases faultStep_spec K w s led r with hs | hs | hs <;>
    rw [hs] at h ⊢ <;>
    by_cases hk : k = Bucket.fault <;>
    simp_all [Ledger.get_set]

theorem alertStep_change (K : Knobs) (w s : Status) (lt : Option ℚ) (led : Ledger)
    (r : Reading) (k : Bucket)
    (h : (alertStep K w s lt led r).1.get k ≠ led.get k) :
    (alertStep K w s lt led r).1.get k = r.ts ∧
      ((k = Bucket.alert ∧ alertEvent r ∈ (alertStep K w s lt led r).2) ∨
        (k = Bucket.recover ∧ recoverEvent r ∈ (alertStep K w s lt led r).2)) := by
  rcases alertStep_spec K w s lt led r with hs | hs | hs | hs <;>
    rw [hs] at h ⊢
  · simp_all
  · simp_all
  · by_cases hk : k = Bucket.alert <;> simp_all [Ledger.get_set]
  · by_cases hk : k = Bucket.recover <;> simp_all [Ledger.get_set]

/-- C4 as amended: across `updateReading` and the per-device heartbeat
sweep, a cooldown bucket's last-fired timestamp changes only to `now` and
only in a call that also emits an event of that bucket's kind — no
suppressed decision ever updates a bucket.  (The converse direction of the
original claim is false: the fresh-transition and spike overrides emit
without updating the bucket; see the counterexample.) -/
theorem C4_ledger_update_implies_emission (K : Knobs) (rec? : Option DeviceRec)
    (r : Reading) (k : Bucket) (st2 : DeviceRec) (now2 : ℚ) (k2 : Bucket)
    (hchg : (updateReading K rec? r).1.lastAlertAt.get k ≠
      (rec?.getD freshRec).lastAlertAt.get k)
    (hchg2 : (checkHeartbeatsDevice K st2 now2).1.lastAlertAt.get k2 ≠
      st2.lastAlertAt.get k2) :
    ((updateReading K rec? r).1.lastAlertAt.get k = r.ts ∧
      ∃ e ∈ (updateReading K rec? r).2, e.kind = bucketKind k) ∧
    ((checkHeartbeatsDevice K st2 now2).1.lastAlertAt.get k2 = now2 ∧
      ∃ e ∈ (checkHeartbeatsDevice K st2 now2).2, e.kind = bucketKind k2) := by
  refine ⟨?_, ?_⟩
  · rw [updateReading_fst_ledger] at hchg
    rw [updateReading_fst_ledger, updateReading_snd]
    set w := (rec?.getD freshRec).status with hw
    set lt := (rec?.getD freshRec).lastTemp with hlt
    set led0 := (rec?.getD freshRec).lastAlertAt with hled0
    set c := classify r.t r.sr r.lower r.upper with hc
    set led1 := (onlineStep K w led0 r).1 with hled1
    set led2 := (faultStep K w c led1 r).1 with hled2
    by_cases h3 : (alertStep K w c lt led2 r).1.get k = led2.get k
    · by_cases h2 : led2.get k = led1.get k
      · have h1 : led1.get k ≠ led0.get k := by
          rw [h3, h2] at hchg
          exact hchg
        obtain ⟨hval, hk, hevs⟩ := onlineStep_change K w led0 r k h1
        refine ⟨by rw [h3, h2]; exact hval, ?_⟩
        refine ⟨onlineEvent r, ?_, by rw [hk]; rfl⟩
        exact List.mem_append.mpr (Or.inl (List.mem_append.mpr (Or.inl (by rw [hevs]; simp))))
      · obtain ⟨hval, hk, hmem⟩ := faultStep_change K w c led1 r k h2
        refine ⟨by rw [h3]; exact hval, ?_⟩
        exact ⟨faultEvent r, List.mem_append.mpr (Or.inl (List.mem_append.mpr (Or.inr hmem))),
          by rw [hk]; rfl⟩
    · obtain ⟨hval, hor⟩ := alertStep_change K w c lt led2 r k h3
      refine ⟨hval, ?_⟩
      rcases hor with ⟨hk, hmem⟩ | ⟨hk, hmem⟩
      · exact ⟨alertEvent r, List.mem_append.mpr (Or.inr hmem), by rw [hk]; rfl⟩
      · exact ⟨recoverEvent r, List.mem_append.mpr (Or.inr hmem), by rw [hk]; rfl⟩
  · rcases checkHeartbeatsDevice_spec K st2 now2 with hs | hs | hs <;> rw [hs] at hchg2 ⊢
    · exact absurd rfl hchg2
    · by_cases hk : k2 = Bucket.offline
      · subst hk
        refine ⟨by simp [Ledger.get_set], ?_⟩
        exact ⟨{ kind := EKind.offline, when := now2 }, by simp, rfl⟩
      · exact absurd (by simp [Ledger.get_set, hk]) hchg2
    · exact absurd rfl hchg2

/-- C4 counterexample: in the spike scenario the second call emits an
`alert` event, yet the `alert` bucket's timestamp is not updated to `now`
(it keeps its previous value `1000000`), so "updated if and only if an
event was allowed through" fails in the emit-without-update direction. -/
theorem C4_counterexample :
    (∃ e ∈ cxA2.2, e.kind = EKind.alert) ∧
      cxA2.1.lastAlertAt.get Bucket.alert ≠ rAlert2.ts ∧
      cxA2.1.lastAlertAt.get Bucket.alert = cxA1.1.lastAlertAt.get Bucket.alert := by
  rw [cxA2_val, cxA1_val]
  refine ⟨⟨alertEvent rAlert2, by simp, rfl⟩, ?_, rfl⟩
  norm_num [Ledger.get, rAlert2]

/-- C4 witness: a fresh alert consumes the alert bucket (`0 → 1000000`) and
a first heartbeat-sweep offline detection consumes the offline bucket. -/
theorem C4_witness :
    ((updateReading K0 none rAlert1).1.lastAlertAt.get Bucket.alert ≠
      ((none : Option DeviceRec).getD freshRec).lastAlertAt.get Bucket.alert) ∧
    ((checkHeartbeatsDevice K0 freshRec 1000000).1.lastAlertAt.get Bucket.offline ≠
      freshRec.lastAlertAt.get Bucket.offline) ∧
    (((updateReading K0 none rAlert1).1.lastAlertAt.get Bucket.alert = rAlert1.ts ∧
        ∃ e ∈ (updateReading K0 none rAlert1).2, e.kind = bucketKind Bucket.alert) ∧
      ((checkHeartbeatsDevice K0 freshRec 1000000).1.lastAlertAt.get Bucket.offline = 1000000 ∧
        ∃ e ∈ (checkHeartbeatsDevice K0 freshRec 1000000).2,
          e.kind = bucketKind Bucket.offline)) := by
  have h1 : (updateReading K0 none rAlert1).1.lastAlertAt.get Bucket.alert ≠
      ((none : Option DeviceRec).getD freshRec).lastAlertAt.get Bucket.alert := by
    rw [show updateReading K0 none rAlert1 = cxA1 from rfl, cxA1_val]
    norm_num [Ledger.get, freshRec]
  have h2 : (checkHeartbeatsDevice K0 freshRec 1000000).1.lastAlertAt.get Bucket.offline ≠
      freshRec.lastAlertAt.get Bucket.offline := by
    norm_num +decide [checkHeartbeatsDevice, offlineAfterMs, shouldCooldown,
      Ledger.get, Ledger.set, freshRec, K0]
  exact ⟨h1, h2,
    C4_ledger_update_implies_emission K0 none rAlert1 Bucket.alert freshRec 1000000
      Bucket.offline h1 h2⟩

/-- C5 as amended: every event emitted by `updateReading` (alert, recover,
fault, online) carries exactly the bounds that were resolved for that
reading, but the `offline` events of the heartbeat sweep carry no bounds at
all (`lower`/`upper` are `undefined`), so the original "every Event carries
the bounds in effect" fails for `offline`. -/
theorem C5_event_bounds (K : Knobs) (rec? : Option DeviceRec) (r : Reading) (e : Event)
    (he : e ∈ (updateReading K rec? r).2)
    (K2 : Knobs) (st2 : DeviceRec) (now2 : ℚ) (e2 : Event)
    (he2 : e2 ∈ (checkHeartbeatsDevice K2 st2 now2).2) :
    (e.lower = r.lower ∧ e.upper = r.upper) ∧ (e2.lower = none ∧ e2.upper = none) := by
  constructor
  · rw [updateReading_snd] at he
    set w := (rec?.getD freshRec).status with hw
    set lt := (rec?.getD freshRec).lastTemp with hlt
    set led0 := (rec?.getD freshRec).lastAlertAt with hled0
    set c := classify r.t r.sr r.lower r.upper with hc
    set led1 := (onlineStep K w led0 r).1 with hled1
    set led2 := (faultStep K w c led1 r).1 with hled2
    rcases List.mem_append.mp he with h | h
    · rcases List.mem_append.mp h with h2 | h2
      · rcases onlineStep_spec K w led0 r with hs | hs <;> rw [hs] at h2 <;>
          simp_all [onlineEvent]
      · rcases faultStep_spec K w c led1 r with hs | hs | hs <;> rw [hs] at h2 <;>
          simp_all [faultEvent]
    · rcases alertStep_spec K w c lt led2 r with hs | hs | hs | hs <;> rw [hs] at h <;>
        simp_all [alertEvent, recoverEvent]
  · rcases checkHeartbeatsDevice_spec K2 st2 now2 with hs | hs | hs <;> rw [hs] at he2 <;>
      simp_all

/-- C5 counterexample: the `offline` event actually produced by the first
heartbeat sweep of the offline scenario carries no bounds at all. -/
theorem C5_counterexample :
    ∃ e ∈ cxH1.2, e.kind = EKind.offline ∧ e.lower = none ∧ e.upper = none := by
  rw [cxH1_val]
  exact ⟨{ kind := EKind.offline, when := 1600000 }, by simp, rfl, rfl, rfl⟩

/-- C5 witness: the alert event of the fresh-alert scenario carries the
resolved bounds, and the offline event of the sweep carries none. -/
theorem C5_witness :
    alertEvent rAlert1 ∈ (updateReading K0 none rAlert1).2 ∧
      ({ kind := EKind.offline, when := 1600000 } : Event) ∈
        (checkHeartbeatsDevice K0 cxS1.1 1600000).2 ∧
      (((alertEvent rAlert1).lower = rAlert1.lower ∧
          (alertEvent rAlert1).upper = rAlert1.upper) ∧
        (({ kind := EKind.offline, when := 1600000 } : Event).lower = none ∧
          ({ kind := EKind.offline, when := 1600000 } : Event).upper = none)) := by
  have hm1 : alertEvent rAlert1 ∈ (updateReading K0 none rAlert1).2 := by
    rw [show updateReading K0 none rAlert1 = cxA1 from rfl, cxA1_val]
    simp
  have hm2 : ({ kind := EKind.offline, when := 1600000 } : Event) ∈
      (checkHeartbeatsDevice K0 cxS1.1 1600000).2 := by
    rw [show checkHeartbeatsDevice K0 cxS1.1 1600000 = cxH1 from rfl, cxH1_val]
    simp
  exact ⟨hm1, hm2, C5_event_bounds K0 none rAlert1 _ hm1 K0 cxS1.1 1600000 _ hm2⟩

theorem checkHeartbeatsDevice_of_offline (K : Knobs) (st : DeviceRec) (now : ℚ)
    (h : st.status = Status.offline) : checkHeartbeatsDevice K st now = (st, []) := by
  unfold checkHeartbeatsDevice
  rw [if_neg (by simp [h])]

/-- C6 as amended: on the sweep that first detects staleness, exactly one
`offline` event is produced when the offline cooldown bucket allows it and
none when the episode starts inside the cooldown window of a previous
`offline` event; either way the status becomes `offline` and subsequent
sweeps produce nothing until a reading restores the device. -/
theorem C6_offline_episode (K : Knobs) (st : DeviceRec) (now : ℚ)
    (hstale : now - st.lastTs ≥ offlineAfterMs K) (hnot : st.status ≠ Status.offline) :
    countKind EKind.offline (checkHeartbeatsDevice K st now).2 =
      (if K.cooldownSec * 1000 ≤ now - st.lastAlertAt.get Bucket.offline then 1 else 0) ∧
      (checkHeartbeatsDevice K st now).1.status = Status.offline ∧
      ∀ now2 : ℚ, checkHeartbeatsDevice K (checkHeartbeatsDevice K st now).1 now2 =
        ((checkHeartbeatsDevice K st now).1, []) := by
  have hstatus : (checkHeartbeatsDevice K st now).1.status = Status.offline := by
    unfold checkHeartbeatsDevice
    rw [if_pos ⟨hstale, hnot⟩]
  refine ⟨?_, hstatus, fun now2 => checkHeartbeatsDevice_of_offline K _ now2 hstatus⟩
  unfold checkHeartbeatsDevice shouldCooldown
  rw [if_pos ⟨hstale, hnot⟩]
  by_cases hcd : now - st.lastAlertAt.get Bucket.offline ≥ K.cooldownSec * 1000
  · rw [if_pos hcd]
    simp [countKind]
    rw [if_pos hcd]
  · rw [if_neg hcd]
    simp [countKind]
    rw [if_neg hcd]

/-- C6 counterexample: the sweep that first detects the second offline
episode (device stale again, `600001 ms < 900000 ms` after the previous
`offline` event) produces zero `offline` events, not exactly one. -/
theorem C6_counterexample :
    2200001 - cxS2.1.lastTs ≥ offlineAfterMs K0 ∧ cxS2.1.status ≠ Status.offline ∧
      countKind EKind.offline cxH2.2 = 0 := by
  rw [cxS2_val, cxH2_val]
  refine ⟨?_, by simp, by simp [countKind]⟩
  norm_num +decide [offlineAfterMs, K0]

/-- C6 witness: the first sweep of the offline scenario detects the stale
device, emits exactly one `offline` event (the bucket allows it), and
subsequent sweeps stay silent. -/
theorem C6_witness :
    1600000 - cxS1.1.lastTs ≥ offlineAfterMs K0 ∧ cxS1.1.status ≠ Status.offline ∧
      (countKind EKind.offline (checkHeartbeatsDevice K0 cxS1.1 1600000).2 =
        (if K0.cooldownSec * 1000 ≤ 1600000 - cxS1.1.lastAlertAt.get Bucket.offline then 1
          else 0) ∧
        (checkHeartbeatsDevice K0 cxS1.1 1600000).1.status = Status.offline ∧
        ∀ now2 : ℚ, checkHeartbeatsDevice K0 (checkHeartbeatsDevice K0 cxS1.1 1600000).1 now2 =
          ((checkHeartbeatsDevice K0 cxS1.1 1600000).1, [])) := by
  have ha : 1600000 - cxS1.1.lastTs ≥ offlineAfterMs K0 := by
    rw [cxS1_val]
    norm_num +decide [offlineAfterMs, K0]
  have hb : cxS1.1.status ≠ Status.offline := by
    rw [cxS1_val]
    simp
  exact ⟨ha, hb, C6_offline_episode K0 cxS1.1 1600000 ha hb⟩

/-- C7 as amended: `getStates` returns a *shallow* snapshot — each entry is
a fresh object copying the scalar fields (id, timestamps, temperature,
fault register, status), but the `lastAlertAt` ledger is shared by
reference (`ledgerAddr` is copied verbatim), so a caller write through a
snapshot entry's ledger reference rewrites the internal device's effective
cooldown ledger. -/
theorem C7_snapshot_shallow (devs : List (String × DeviceRecRef)) (h : LedgerHeap)
    (k : Bucket) (v : ℚ) (p : String × DeviceRecRef)
    (_hp : p ∈ devs) (hlen : p.2.ledgerAddr < h.store.length) :
    List.Forall₂ (fun e q => e.id = q.1 ∧ e.lastTs = q.2.lastTs ∧
      e.lastTemp = q.2.lastTemp ∧ e.lastSr = q.2.lastSr ∧ e.status = q.2.status ∧
      e.lastOnlineAt = q.2.lastOnlineAt ∧ e.ledgerAddr = q.2.ledgerAddr)
      (getStates devs) devs ∧
    (DeviceRecRef.deref (h.writeBucket p.2.ledgerAddr k v) p.2).lastAlertAt =
      ((DeviceRecRef.deref h p.2).lastAlertAt).set k v := by
  have hfa : ∀ ds : List (String × DeviceRecRef),
      List.Forall₂ (fun e q => e.id = q.1 ∧ e.lastTs = q.2.lastTs ∧
        e.lastTemp = q.2.lastTemp ∧ e.lastSr = q.2.lastSr ∧ e.status = q.2.status ∧
        e.lastOnlineAt = q.2.lastOnlineAt ∧ e.ledgerAddr = q.2.ledgerAddr)
        (getStates ds) ds := by
    intro ds
    induction ds with
    | nil => simp [getStates]
    | cons a l ih =>
      rw [getStates, List.map_cons]
      exact List.Forall₂.cons ⟨rfl, rfl, rfl, rfl, rfl, rfl, rfl⟩ ih
  refine ⟨hfa devs, ?_⟩
  show (LedgerHeap.writeBucket h p.2.ledgerAddr k v).read p.2.ledgerAddr =
    (h.read p.2.ledgerAddr).set k v
  unfold LedgerHeap.writeBucket LedgerHeap.write LedgerHeap.read
  rw [List.getD_eq_getElem?_getD, List.getElem?_set_eq_of_lt _ hlen]
  rfl

/-- C7 counterexample: the snapshot entry shares the device's ledger
reference; the caller's write through it changes the internal cooldown
timers, and as a consequence a subsequent `updateReading` that would have
emitted an alert is silently suppressed. -/
theorem C7_counterexample :
    snap0 = [snapEntry0] ∧ snapEntry0.ledgerAddr = dev0.ledgerAddr ∧
      hpMut = hp0.writeBucket snapEntry0.ledgerAddr Bucket.alert 1899999 ∧
      (DeviceRecRef.deref hpMut dev0).lastAlertAt ≠ (DeviceRecRef.deref hp0 dev0).lastAlertAt ∧
      countKind EKind.alert (updateReadingRef K0 hp0 dev0 rAlert3).2.2 = 1 ∧
      countKind EKind.alert (updateReadingRef K0 hpMut dev0 rAlert3).2.2 = 0 := by
  refine ⟨rfl, rfl, rfl, ?_, ?_, ?_⟩
  · norm_num +decide [DeviceRecRef.deref, LedgerHeap.writeBucket, LedgerHeap.write,
      LedgerHeap.read, hpMut, hp0, dev0, snap0, getStates, devs0, snapEntry0,
      Ledger.set, Ledger.get]
  · norm_num +decide [updateReadingRef, DeviceRecRef.deref, LedgerHeap.writeBucket,
      LedgerHeap.write, LedgerHeap.read, hp0, dev0, rAlert3, bLo, bHi, K0,
      updateReading, classify, jsLtOpt, jsGtOpt, spikeOf, shouldCooldown, toUint32,
      jsTrunc, Ledger.get, Ledger.set, onlineStep, faultStep, alertStep, countKind,
      alertEvent]
  · norm_num +decide [updateReadingRef, DeviceRecRef.deref, LedgerHeap.writeBucket,
      LedgerHeap.write, LedgerHeap.read, hpMut, hp0, dev0, snap0, getStates, devs0,
      snapEntry0, rAlert3, bLo, bHi, K0, updateReading, classify, jsLtOpt, jsGtOpt,
      spikeOf, shouldCooldown, toUint32, jsTrunc, Ledger.get, Ledger.set, onlineStep,
      faultStep, alertStep, countKind]

/-- C7 witness: the snapshot scenario satisfies the amended theorem's
hypotheses. -/
theorem C7_witness :
    ("A", dev0) ∈ devs0 ∧ dev0.ledgerAddr < hp0.store.length ∧
      (List.Forall₂ (fun e q => e.id = q.1 ∧ e.lastTs = q.2.lastTs ∧
        e.lastTemp = q.2.lastTemp ∧ e.lastSr = q.2.lastSr ∧ e.status = q.2.status ∧
        e.lastOnlineAt = q.2.lastOnlineAt ∧ e.ledgerAddr = q.2.ledgerAddr)
        (getStates devs0) devs0 ∧
      (DeviceRecRef.deref (hp0.writeBucket ("A", dev0).2.ledgerAddr Bucket.alert 1899999)
        ("A", dev0).2).lastAlertAt =
        ((DeviceRecRef.deref hp0 ("A", dev0).2).lastAlertAt).set Bucket.alert 1899999) := by
  have hp : ("A", dev0) ∈ devs0 := by simp [devs0]
  have hlen : dev0.ledgerAddr < hp0.store.length := by
    norm_num [dev0, hp0]
  exact ⟨hp, hlen, C7_snapshot_shallow devs0 hp0 Bucket.alert 1899999 ("A", dev0) hp hlen⟩

/-- C8 (code bug): `/ingest` resolves an unconfigured bound to `undefined`
and `updateReading` (first variant of `alerts.js`) uses the bound as-is, so
the reading `temp_c = 0, sr = 0` — far outside the process defaults
`-90..-70` — is classified `normal` and produces no event at all, while the
documented default pair would classify it `alert`. -/
theorem C8_missing_default_bounds :
    resolveBound none none = none ∧
      rNoBounds.lower = none ∧ rNoBounds.upper = none ∧
      (updateReading K0 none rNoBounds).1.status = Status.normal ∧
      (updateReading K0 none rNoBounds).2 = [] ∧
      classify rNoBounds.t rNoBounds.sr (some LOWER) (some UPPER) = Status.alert := by
  refine ⟨rfl, rfl, rfl, ?_, ?_, ?_⟩
  · norm_num +decide [updateReading, classify, jsLtOpt, jsGtOpt, spikeOf, shouldCooldown,
      toUint32, jsTrunc, freshRec, Ledger.get, Ledger.set, K0, rNoBounds, onlineStep,
      faultStep, alertStep]
  · norm_num +decide [updateReading, classify, jsLtOpt, jsGtOpt, spikeOf, shouldCooldown,
      toUint32, jsTrunc, freshRec, Ledger.get, Ledger.set, K0, rNoBounds, onlineStep,
      faultStep, alertStep]
  · norm_num +decide [classify, jsLtOpt, jsGtOpt, toUint32, jsTrunc, rNoBounds,
      LOWER, UPPER]

/-- C9 counterexample: a permanent 400 response is retried — `postToDiscord`
issues two HTTP requests for the message, not exactly one. -/
theorem C9_counterexample :
    postToDiscord true (fun _ => 400) =
      ({ ok := false, skipped := false, status := some 400 }, 2) ∧
      (postToDiscord true (fun _ => 400)).2 ≠ 1 := by
  constructor <;> decide

/-- C9 as amended: a 4xx non-429 response is retried exactly once — two
HTTP requests total — and the failure after the second attempt is reported
in the returned result object (`ok = false` with the final status), never
raised. -/
theorem C9_permanent_failure_two_requests (resp : ℕ → ℕ) (s1 s2 : ℕ)
    (hr0 : resp 0 = s1) (hr1 : resp 1 = s2)
    (h1a : 400 ≤ s1) (h1b : s1 ≤ 499) (_h1c : s1 ≠ 429)
    (h2a : 400 ≤ s2) (h2b : s2 ≤ 499) (h2c : s2 ≠ 429) :
    postToDiscord true resp = ({ ok := false, skipped := false, status := some s2 }, 2) := by
  unfold postToDiscord httpOk
  rw [hr0, hr1]
  rw [if_neg (by simp)]
  rw [if_neg (by omega)]
  rw [if_neg (by omega)]
  rw [if_neg h2c]
  rw [if_neg (by simp; omega)]

/-- C9 witness: status 404 on both attempts. -/
theorem C9_witness :
    (fun _ : ℕ => 404) 0 = 404 ∧ (fun _ : ℕ => 404) 1 = 404 ∧
      (400 : ℕ) ≤ 404 ∧ (404 : ℕ) ≤ 499 ∧ (404 : ℕ) ≠ 429 ∧
      postToDiscord true (fun _ : ℕ => 404) =
        ({ ok := false, skipped := false, status := some 404 }, 2) :=
  ⟨rfl, rfl, by norm_num, by norm_num, by norm_num,
    C9_permanent_failure_two_requests (fun _ => 404) 404 404 rfl rfl (by norm_num)
      (by norm_num) (by norm_num) (by norm_num) (by norm_num) (by norm_num)⟩

/-- C10 counterexample: the negative input `sr = -2^32` is *not* treated as
a non-zero fault — its unsigned-32-bit conversion is `0`, the reading is
classified `normal` and no fault event is emitted, refuting "negative sr
values are ... hence non-zero, i.e. fault". -/
theorem C10_counterexample :
    rNegSr.sr < 0 ∧ toUint32 rNegSr.sr = 0 ∧
      (updateReading K0 none rNegSr).1.status = Status.normal ∧
      countKind EKind.fault (updateReading K0 none rNegSr).2 = 0 := by
  refine ⟨by norm_num [rNegSr], ?_, ?_, ?_⟩
  · norm_num +decide [toUint32, jsTrunc, rNegSr]
  · norm_num +decide [updateReading, classify, jsLtOpt, jsGtOpt, spikeOf, shouldCooldown,
      toUint32, jsTrunc, freshRec, Ledger.get, Ledger.set, K0, rNegSr, bLo, bHi,
      onlineStep, faultStep, alertStep]
  · norm_num +decide [updateReading, classify, jsLtOpt, jsGtOpt, spikeOf, shouldCooldown,
      toUint32, jsTrunc, freshRec, Ledger.get, Ledger.set, K0, rNegSr, bLo, bHi,
      onlineStep, faultStep, alertStep, countKind]

/-- C10 as amended: `updateReading` stores `lastSr = sr >>> 0` and detects a
fault exactly when `sr >>> 0 ≠ 0`; inputs whose unsigned-32-bit conversion
is `0` (such as `2^32` and fractions below 1) are no-fault, and a negative
`sr = -n` with `0 < n ≤ 2^32` converts to `2^32 - n` — non-zero (hence a
fault) except at `n = 2^32` exactly. -/
theorem C10_uint32_semantics (K : Knobs) (rec? : Option DeviceRec) (r : Reading) (n : ℕ)
    (hn1 : 0 < n) (hn2 : n ≤ 4294967296) :
    (updateReading K rec? r).1.lastSr = toUint32 r.sr ∧
      ((updateReading K rec? r).1.status = Status.fault ↔ toUint32 r.sr ≠ 0) ∧
      (toUint32 r.sr = 0 → countKind EKind.fault (updateReading K rec? r).2 = 0) ∧
      toUint32 4294967296 = 0 ∧ toUint32 (1 / 2 : ℚ) = 0 ∧
      toUint32 (-(n : ℚ)) = 4294967296 - n := by
  refine ⟨updateReading_fst_lastSr K rec? r, ?_, ?_, ?_, ?_, ?_⟩
  · rw [updateReading_fst_status]
    exact classify_fault_iff r.t r.sr r.lower r.upper
  · intro h0
    have hcne : classify r.t r.sr r.lower r.upper ≠ Status.fault := by
      intro hcf
      exact absurd ((classify_fault_iff r.t r.sr r.lower r.upper).mp hcf) (by simp [h0])
    apply countKind_eq_zero
    intro e he
    rw [updateReading_snd] at he
    set w := (rec?.getD freshRec).status with hw
    set lt := (rec?.getD freshRec).lastTemp with hlt
    set led0 := (rec?.getD freshRec).lastAlertAt with hled0
    set c := classify r.t r.sr r.lower r.upper with hc
    set led1 := (onlineStep K w led0 r).1 with hled1
    set led2 := (faultStep K w c led1 r).1 with hled2
    rw [faultStep_of_ne K w c led1 r hcne] at he
    rcases List.mem_append.mp he with h | h
    · rcases List.mem_append.mp h with h2 | h2
      · rcases onlineStep_spec K w led0 r with hs | hs <;> rw [hs] at h2 <;>
          simp_all [onlineEvent]
      · simp at h2
    · rcases alertStep_spec K w c lt led2 r with hs | hs | hs | hs <;> rw [hs] at h <;>
        simp_all [alertEvent, recoverEvent]
  · with_unfolding_all decide
  · with_unfolding_all decide
  · unfold toUint32 jsTrunc
    rw [show (-(n : ℚ)).num = -(n : ℤ) by simp]
    rw [show (-(n : ℚ)).den = 1 by simp]
    rw [if_neg (by omega)]
    push_cast
    omega

/-- C10 witness: instantiated on an in-range zero-`sr` reading and `n = 1`
(so `-1 >>> 0 = 2^32 - 1`). -/
theorem C10_witness :
    (0 : ℕ) < 1 ∧ (1 : ℕ) ≤ 4294967296 ∧
      ((updateReading K0 none rNormal1).1.lastSr = toUint32 rNormal1.sr ∧
        ((updateReading K0 none rNormal1).1.status = Status.fault ↔
          toUint32 rNormal1.sr ≠ 0) ∧
        (toUint32 rNormal1.sr = 0 →
          countKind EKind.fault (updateReading K0 none rNormal1).2 = 0) ∧
        toUint32 4294967296 = 0 ∧ toUint32 (1 / 2 : ℚ) = 0 ∧
        toUint32 (-((1 : ℕ) : ℚ)) = 4294967296 - 1) :=
  ⟨by norm_num, by norm_num,
    C10_uint32_semantics K0 none rNormal1 1 (by norm_num) (by norm_num)⟩

end FreezerMonitor
